import Mathlib

/-!
Shallow embedding of the Candle lighting library (LightingArea.cpp together
with the LightSource interface) and proofs about it.  Pixel coordinates,
transform entries and the opacity are modelled as rationals; color channels
are bytes modelled as naturals; the render-to-texture surface is modelled as
the chronological log of the commands issued to it, each command carrying the
render states (blend mode, transform, bound texture) it was issued with.
-/

namespace Candle

/-- RGBA color, one byte per channel (sf::Color). -/
structure Color where
  r : Nat
  g : Nat
  b : Nat
  a : Nat
deriving DecidableEq

def Color.White : Color := ⟨255, 255, 255, 255⟩

def Color.Transparent : Color := ⟨0, 0, 0, 0⟩

/-- sf::BlendMode::Factor. -/
inductive Factor
  | Zero
  | One
  | SrcColor
  | OneMinusSrcColor
  | DstColor
  | OneMinusDstColor
  | SrcAlpha
  | OneMinusSrcAlpha
  | DstAlpha
  | OneMinusDstAlpha
deriving DecidableEq

/-- sf::BlendMode::Equation. -/
inductive BlendEq
  | Add
  | Subtract
  | ReverseSubtract
deriving DecidableEq

/-- sf::BlendMode: source/destination factor and equation, independently for
the color and the alpha channel. -/
structure BlendMode where
  colorSrcFactor : Factor
  colorDstFactor : Factor
  colorEqn : BlendEq
  alphaSrcFactor : Factor
  alphaDstFactor : Factor
  alphaEqn : BlendEq
deriving DecidableEq

/-- sf::BlendAlpha, the default blend mode of sf::RenderStates::Default. -/
def sfBlendAlpha : BlendMode :=
  ⟨.SrcAlpha, .OneMinusSrcAlpha, .Add, .One, .OneMinusSrcAlpha, .Add⟩

/-- sf::BlendAdd. -/
def sfBlendAdd : BlendMode :=
  ⟨.SrcAlpha, .One, .Add, .One, .One, .Add⟩

/-- The file-local blend mode `l_substractAlpha` of LightingArea.cpp:
color `Zero`/`One`/`Add` (destination color kept), alpha
`Zero`/`OneMinusSrcAlpha`/`Add` (destination alpha scaled down by the
source alpha). -/
def l_substractAlpha : BlendMode :=
  ⟨.Zero, .One, .Add, .Zero, .OneMinusSrcAlpha, .Add⟩

/-- 2D affine transform: the top two rows of sf::Transform's 3x3 matrix. -/
structure Transform where
  a00 : ℚ
  a01 : ℚ
  a02 : ℚ
  a10 : ℚ
  a11 : ℚ
  a12 : ℚ
deriving DecidableEq

/-- sf::Transform::Identity. -/
def Transform.identity : Transform := ⟨1, 0, 0, 0, 1, 0⟩

/-- Matrix product of two affine transforms (sf::Transform::combine,
`operator*=`). -/
def Transform.combine (l r : Transform) : Transform :=
  ⟨l.a00 * r.a00 + l.a01 * r.a10,
   l.a00 * r.a01 + l.a01 * r.a11,
   l.a00 * r.a02 + l.a01 * r.a12 + l.a02,
   l.a10 * r.a00 + l.a11 * r.a10,
   l.a10 * r.a01 + l.a11 * r.a11,
   l.a10 * r.a02 + l.a11 * r.a12 + l.a12⟩

def Transform.det (t : Transform) : ℚ := t.a00 * t.a11 - t.a01 * t.a10

/-- sf::Transform::getInverse: the inverse transform, or the identity when
the matrix is not invertible. -/
def Transform.getInverse (t : Transform) : Transform :=
  if t.det = 0 then Transform.identity
  else
    ⟨t.a11 / t.det, -t.a01 / t.det, (t.a01 * t.a12 - t.a11 * t.a02) / t.det,
     -t.a10 / t.det, t.a00 / t.det, (t.a10 * t.a02 - t.a00 * t.a12) / t.det⟩

/-- Pure translation, the transform of an sf::Transformable that had only
setPosition called on it. -/
def Transform.translation (x y : ℚ) : Transform := ⟨1, 0, x, 0, 1, y⟩

/-- Identity of a bound sf::Texture: either an externally owned texture
(by pointer identity) or the area's own render-surface texture. -/
inductive TexRef
  | ext (id : Nat)
  | renderTex
deriving DecidableEq

/-- sf::RenderStates (the parts the embedded code uses). -/
structure RenderStates where
  blendMode : BlendMode
  transform : Transform
  texture : Option TexRef
deriving DecidableEq

/-- sf::RenderStates::Default: alpha blending, identity transform, no
texture. -/
def RenderStates.default : RenderStates := ⟨sfBlendAlpha, Transform.identity, none⟩

/-- sf::Vertex: position, texture coordinates, color. -/
structure Vertex where
  position : ℚ × ℚ
  texCoords : ℚ × ℚ
  color : Color
deriving DecidableEq

/-- Default-constructed sf::Vertex. -/
def Vertex.default : Vertex := ⟨(0, 0), (0, 0), Color.White⟩

/-- A 4-vertex sf::VertexArray with primitive type sf::Quads. -/
structure Quad where
  v0 : Vertex
  v1 : Vertex
  v2 : Vertex
  v3 : Vertex
deriving DecidableEq

/-- sf::VertexArray(sf::Quads, 4): four default vertices. -/
def Quad.init : Quad := ⟨Vertex.default, Vertex.default, Vertex.default, Vertex.default⟩

/-- What gets drawn onto the render surface: a LightSource (abstract, drawn
through its virtual draw, identified by id) or a quad vertex array. -/
inductive Drawable
  | light (id : Nat)
  | quad (q : Quad)
deriving DecidableEq

/-- A draw call issued to a render target: the drawable and the render
states it was drawn with. -/
structure DrawCmd where
  drawable : Drawable
  states : RenderStates
deriving DecidableEq

/-- One operation applied to the render surface. -/
inductive SurfaceOp
  | clear (c : Color)
  | draw (cmd : DrawCmd)
  | display
deriving DecidableEq

/-- sf::RenderTexture, modelled as its size, smoothing flag, and the
chronological log of the operations issued to it. -/
structure RenderTexture where
  sizeX : ℚ
  sizeY : ℚ
  smooth : Bool
  log : List SurfaceOp
deriving DecidableEq

/-- Default-constructed sf::RenderTexture (before create). -/
def RenderTexture.init : RenderTexture := ⟨0, 0, false, []⟩

def RenderTexture.clearTo (rt : RenderTexture) (c : Color) : RenderTexture :=
  { rt with log := rt.log ++ [SurfaceOp.clear c] }

def RenderTexture.drawOn (rt : RenderTexture) (cmd : DrawCmd) : RenderTexture :=
  { rt with log := rt.log ++ [SurfaceOp.draw cmd] }

def RenderTexture.displayIt (rt : RenderTexture) : RenderTexture :=
  { rt with log := rt.log ++ [SurfaceOp.display] }

/-- sf::IntRect. -/
structure IntRect where
  left : Int
  top : Int
  width : Int
  height : Int
deriving DecidableEq

/-- Default-constructed sf::IntRect: all components zero. -/
def IntRect.init : IntRect := ⟨0, 0, 0, 0⟩

/-- candle::LightingArea::Mode. -/
inductive Mode
  | FOG
  | AMBIENTAL
deriving DecidableEq

/-- candle::LightingArea. `trans` is the sf::Transformable base state,
represented by its current transform matrix; the embedded code only reads
`getTransform()` and sets the position at construction. -/
structure LightingArea where
  mode : Mode
  trans : Transform
  color : Color
  opacity : ℚ
  baseTexture : Option TexRef
  baseTextureRect : IntRect
  baseTextureQuad : Quad
  areaQuad : Quad
  renderTexture : RenderTexture
deriving DecidableEq

/-- LightingArea::initializeRenderTexture(size): (re)creates the render
texture at the given size with smoothing on, sets the four corner positions
of both quads and the texture coordinates of the area quad (the chained
assignments set `m_baseTextureQuad[i].position`, `m_areaQuad[i].position`
and `m_areaQuad[i].texCoords`; the base-texture quad's texCoords are not
touched here). -/
def LightingArea.initializeRenderTexture (ar : LightingArea) (sx sy : ℚ) : LightingArea :=
  { ar with
    renderTexture := { sizeX := sx, sizeY := sy, smooth := true, log := [] }
    baseTextureQuad :=
      { v0 := { ar.baseTextureQuad.v0 with position := (0, 0) }
        v1 := { ar.baseTextureQuad.v1 with position := (sx, 0) }
        v2 := { ar.baseTextureQuad.v2 with position := (sx, sy) }
        v3 := { ar.baseTextureQuad.v3 with position := (0, sy) } }
    areaQuad :=
      { v0 := { ar.areaQuad.v0 with position := (0, 0), texCoords := (0, 0) }
        v1 := { ar.areaQuad.v1 with position := (sx, 0), texCoords := (sx, 0) }
        v2 := { ar.areaQuad.v2 with position := (sx, sy), texCoords := (sx, sy) }
        v3 := { ar.areaQuad.v3 with position := (0, sy), texCoords := (0, sy) } } }

/-- LightingArea::setTextureRect(rect): updates the base-texture quad's
texture coordinates from the rectangle.  The source never writes
`m_baseTextureRect` (not here, not elsewhere in LightingArea.cpp). -/
def LightingArea.setTextureRect (ar : LightingArea) (rect : IntRect) : LightingArea :=
  { ar with
    baseTextureQuad :=
      { v0 := { ar.baseTextureQuad.v0 with
                  texCoords := ((rect.left : ℚ), (rect.top : ℚ)) }
        v1 := { ar.baseTextureQuad.v1 with
                  texCoords := (((rect.left + rect.width : Int) : ℚ), (rect.top : ℚ)) }
        v2 := { ar.baseTextureQuad.v2 with
                  texCoords := (((rect.left + rect.width : Int) : ℚ),
                                ((rect.top + rect.height : Int) : ℚ)) }
        v3 := { ar.baseTextureQuad.v3 with
                  texCoords := ((rect.left : ℚ), ((rect.top + rect.height : Int) : ℚ)) } } }

/-- LightingArea::setAreaTexture(texture, rect): stores the texture pointer,
recreates the render texture at the rectangle's size, and forwards to
setTextureRect. -/
def LightingArea.setAreaTexture (ar : LightingArea) (texture : Option TexRef)
    (rect : IntRect) : LightingArea :=
  (({ ar with baseTexture := texture
    }).initializeRenderTexture (rect.width : ℚ) (rect.height : ℚ)).setTextureRect rect

/-- LightingArea::getTextureRect: returns the stored `m_baseTextureRect`. -/
def LightingArea.getTextureRect (ar : LightingArea) : IntRect := ar.baseTextureRect

/-- The LightingArea member state right after the constructor's
initializer list ran: both quads are fresh 4-vertex Quads arrays, the color
is white.  `m_opacity` has no assignment anywhere in LightingArea.cpp and is
default-initialized in the class header, which is not among these sources;
modelled from the spec scenario defaults as 1. -/
def LightingArea.preInit (mode : Mode) : LightingArea :=
  { mode := mode
    trans := Transform.identity
    color := Color.White
    opacity := 1
    baseTexture := none
    baseTextureRect := IntRect.init
    baseTextureQuad := Quad.init
    areaQuad := Quad.init
    renderTexture := RenderTexture.init }

/-- LightingArea(Mode, position, size): stores the mode, nulls the base
texture, creates the render texture at the given size, and sets the
Transformable position (a fresh Transformable, so the transform becomes a
pure translation). -/
def mkLightingArea (mode : Mode) (pos : ℚ × ℚ) (sx sy : ℚ) : LightingArea :=
  { (LightingArea.preInit mode).initializeRenderTexture sx sy with
    trans := Transform.translation pos.1 pos.2 }

/-- LightingArea(Mode, texture, rect): stores the mode and forwards to
setAreaTexture. -/
def mkLightingAreaTex (mode : Mode) (texture : Option TexRef) (rect : IntRect) :
    LightingArea :=
  (LightingArea.preInit mode).setAreaTexture texture rect

/-- LightingArea::setAreaColor. -/
def LightingArea.setAreaColor (ar : LightingArea) (c : Color) : LightingArea :=
  { ar with color := c }

/-- LightingArea::getAreaColor. -/
def LightingArea.getAreaColor (ar : LightingArea) : Color := ar.color

/-- The byte-channel product `ret.a *= m_opacity`: the float product is
converted back to a byte, truncating (floor for the non-negative in-range
values the conversion is defined on). -/
def byteScale (a : Nat) (o : ℚ) : Nat := (⌊(a : ℚ) * o⌋).toNat

/-- LightingArea::getActualColor: the area color with its alpha channel
scaled by the opacity. -/
def LightingArea.getActualColor (ar : LightingArea) : Color :=
  { ar.color with a := byteScale ar.color.a ar.opacity }

/-- LightingArea::setAreaOpacity. -/
def LightingArea.setAreaOpacity (ar : LightingArea) (o : ℚ) : LightingArea :=
  { ar with opacity := o }

/-- LightingArea::getAreaOpacity. -/
def LightingArea.getAreaOpacity (ar : LightingArea) : ℚ := ar.opacity

/-- LightingArea::clear(): with a base texture set, clear the render texture
to transparent and draw the base-texture quad — the source passes no render
states to that draw call, so it runs under sf::RenderStates::Default and in
particular with no texture bound; with no base texture, clear to
getActualColor(). -/
def LightingArea.clear (ar : LightingArea) : LightingArea :=
  match ar.baseTexture with
  | some _ =>
      { ar with renderTexture :=
          ((ar.renderTexture.clearTo Color.Transparent).drawOn
            ⟨Drawable.quad ar.baseTextureQuad, RenderStates.default⟩) }
  | none => { ar with renderTexture := ar.renderTexture.clearTo ar.getActualColor }

/-- The local render states `fogrs` that LightingArea::draw(const
LightSource&) constructs: subtract-alpha blend mode, and the default
(identity) transform combined with the inverse of the area's transform. -/
def LightingArea.fogrs (ar : LightingArea) : RenderStates :=
  { RenderStates.default with
    blendMode := l_substractAlpha
    transform := Transform.identity.combine ar.trans.getInverse }

/-- LightingArea::draw(const LightSource& light): when the opacity is
positive and the mode is FOG, draws the light onto the render texture.  The
source builds the local states `fogrs` but the draw call
`m_renderTexture.draw(light);` does not pass them, so the light is drawn
under sf::RenderStates::Default.  In every other case nothing happens. -/
def LightingArea.drawLight (ar : LightingArea) (light : Nat) : LightingArea :=
  if 0 < ar.opacity ∧ ar.mode = Mode.FOG then
    { ar with renderTexture :=
        (ar.renderTexture.drawOn ⟨Drawable.light light, RenderStates.default⟩) }
  else ar

/-- LightingArea::draw(sf::RenderTarget&, sf::RenderStates): the draw call
the area issues to the scene target — in AMBIENTAL mode the blend mode is
replaced by sf::BlendAdd, then the area's transform is combined onto the
states' transform, the render texture's texture is bound, and the area quad
is drawn. -/
def LightingArea.drawScene (ar : LightingArea) (s : RenderStates) : DrawCmd :=
  let s1 := if ar.mode = Mode.AMBIENTAL then { s with blendMode := sfBlendAdd } else s
  let s2 := { s1 with transform := s1.transform.combine ar.trans }
  let s3 := { s2 with texture := some TexRef.renderTex }
  ⟨Drawable.quad ar.areaQuad, s3⟩

/-- LightingArea::display(): unconditionally finalizes the render
texture. -/
def LightingArea.displayArea (ar : LightingArea) : LightingArea :=
  { ar with renderTexture := ar.renderTexture.displayIt }

/-- One call of the per-frame compositing protocol of a LightingArea. -/
inductive AreaOp
  | clearOp
  | drawLightOp (light : Nat)
  | displayOp
deriving DecidableEq

/-- A protocol-order violation, the error the spec asks the protocol to
fail fast with. -/
inductive ProtocolError
  | outOfOrder
deriving DecidableEq

/-- One step of the compositing protocol.  The source performs no
call-order check of any kind: clear, draw(light) and display each execute
unconditionally on any state, so no step ever returns an error. -/
def runOp (ar : LightingArea) : AreaOp → Except ProtocolError LightingArea
  | AreaOp.clearOp => Except.ok ar.clear
  | AreaOp.drawLightOp l => Except.ok (ar.drawLight l)
  | AreaOp.displayOp => Except.ok ar.displayArea

/-- Run a sequence of protocol calls, stopping at the first error. -/
def runSeq (ar : LightingArea) : List AreaOp → Except ProtocolError LightingArea
  | [] => Except.ok ar
  | op :: ops =>
    match runOp ar op with
    | Except.ok ar2 => runSeq ar2 ops
    | Except.error e => Except.error e

/-- Whether a protocol run was accepted (no call rejected). -/
def accepted : Except ProtocolError LightingArea → Bool
  | Except.ok _ => true
  | Except.error _ => false

/-- An occluder segment (sfu::Line used as a segment between two points). -/
structure Seg where
  p : ℚ × ℚ
  q : ℚ × ℚ
deriving DecidableEq

/-- 2D cross product. -/
def cross (u v : ℚ × ℚ) : ℚ := u.1 * v.2 - u.2 * v.1

/-- Modelled from the spec: the ray–segment intersection test inside
LightSource::castRay, whose definition (LightSource.cpp) is not among these
sources — only its declaration is.  For the ray `o + t·d` and the segment
from `s.p` to `s.q`, returns the parametric distance `t` of the
intersection when one exists with `t` positive and the segment parameter in
`[0, 1]`; segments parallel to the ray and intersections at distance 0 are
ignored (§4.2). -/
def raySegParam (o d : ℚ × ℚ) (s : Seg) : Option ℚ :=
  let e : ℚ × ℚ := (s.q.1 - s.p.1, s.q.2 - s.p.2)
  let w : ℚ × ℚ := (s.p.1 - o.1, s.p.2 - o.2)
  let den := cross d e
  if den = 0 then none
  else
    let t := cross w e / den
    let u := cross w d / den
    if 0 < t ∧ 0 ≤ u ∧ u ≤ 1 then some t else none

/-- Modelled from the spec: the positive parametric hit distances of the ray
against every segment of every pool the light references (§4.2's linear
scan). -/
def hitParams (pools : List (List Seg)) (o d : ℚ × ℚ) : List ℚ :=
  pools.flatten.filterMap (raySegParam o d)

/-- Modelled from the spec: LightSource::castRay (§4.2).  The direction `d`
is a unit vector, so the parametric distance along the ray is the Euclidean
distance.  The nearest intersection within `maxRange` wins; when no segment
is met within `maxRange`, the point at distance `maxRange` along the ray is
returned. -/
def castRay (pools : List (List Seg)) (o d : ℚ × ℚ) (maxRange : ℚ) : ℚ × ℚ :=
  let t := ((hitParams pools o d).filter (fun x => x ≤ maxRange)).foldr min maxRange
  (o.1 + t * d.1, o.2 + t * d.2)

/-- Squared Euclidean distance. -/
def distSq (u v : ℚ × ℚ) : ℚ := (u.1 - v.1) ^ 2 + (u.2 - v.2) ^ 2

theorem Transform.identity_combine (t : Transform) :
    Transform.identity.combine t = t := by
  cases t
  simp [Transform.combine, Transform.identity]

/-- C10: after setAreaOpacity(v), getAreaOpacity() returns exactly v; the
stored opacity is not clamped to [0, 1] (the quantifier ranges over all
rationals, values outside [0, 1] included). -/
theorem setAreaOpacity_getAreaOpacity (ar : LightingArea) (v : ℚ) :
    (ar.setAreaOpacity v).getAreaOpacity = v := rfl

/-- C7: the mode is set at construction (by both constructors) and is
preserved unchanged by clear, draw(light), display, setAreaColor,
setAreaOpacity, setAreaTexture and setTextureRect. -/
theorem mode_fixed_at_construction (mode : Mode) (pos : ℚ × ℚ) (sx sy : ℚ)
    (tex : Option TexRef) (rect : IntRect) (ar : LightingArea) (l : Nat)
    (c : Color) (o : ℚ) :
    (mkLightingArea mode pos sx sy).mode = mode ∧
    (mkLightingAreaTex mode tex rect).mode = mode ∧
    ar.clear.mode = ar.mode ∧
    (ar.drawLight l).mode = ar.mode ∧
    ar.displayArea.mode = ar.mode ∧
    (ar.setAreaColor c).mode = ar.mode ∧
    (ar.setAreaOpacity o).mode = ar.mode ∧
    (ar.setAreaTexture tex rect).mode = ar.mode ∧
    (ar.setTextureRect rect).mode = ar.mode := by
  refine ⟨rfl, rfl, ?_, ?_, rfl, rfl, rfl, rfl, rfl⟩
  · unfold LightingArea.clear
    cases ar.baseTexture <;> rfl
  · unfold LightingArea.drawLight
    split <;> rfl

/-- C6 (confirmed): drawing the area into a scene target under the default
render states draws the area quad textured with the render-surface texture,
under the area's transform; the blend mode is additive for AMBIENTAL and
the default alpha blending for FOG. -/
theorem drawScene_spec (ar : LightingArea) :
    ar.drawScene RenderStates.default =
      ⟨Drawable.quad ar.areaQuad,
       { blendMode := if ar.mode = Mode.AMBIENTAL then sfBlendAdd else sfBlendAlpha
         transform := ar.trans
         texture := some TexRef.renderTex }⟩ := by
  unfold LightingArea.drawScene
  cases hm : ar.mode <;>
    simp [hm, RenderStates.default, Transform.identity_combine]

/-- C1 (amended): in AMBIENTAL mode, draw(light) is a no-op; the area is
returned unchanged and in particular nothing is drawn onto the render
surface. -/
theorem ambient_drawLight_noop (ar : LightingArea) (l : Nat)
    (h : ar.mode = Mode.AMBIENTAL) : ar.drawLight l = ar := by
  unfold LightingArea.drawLight
  rw [if_neg]
  rintro ⟨-, hfog⟩
  rw [h] at hfog
  cases hfog

theorem ambient_drawLight_noop_witness :
    (mkLightingArea Mode.AMBIENTAL (0, 0) 4 4).mode = Mode.AMBIENTAL ∧
    (mkLightingArea Mode.AMBIENTAL (0, 0) 4 4).drawLight 0 =
      mkLightingArea Mode.AMBIENTAL (0, 0) 4 4 :=
  ⟨rfl, ambient_drawLight_noop (mkLightingArea Mode.AMBIENTAL (0, 0) 4 4) 0 rfl⟩

/-- C1 (counterexample to the claim as stated): an AMBIENTAL area on which
draw(light) is called draws nothing at all onto its render surface — the
surface log stays empty, so no additive draw of the light's polygon
happens. -/
theorem ambient_drawLight_counterexample :
    (mkLightingArea Mode.AMBIENTAL (0, 0) 4 4).mode = Mode.AMBIENTAL ∧
    ((mkLightingArea Mode.AMBIENTAL (0, 0) 4 4).drawLight 7).renderTexture.log = [] := by
  decide

/-- C5 (amended): the implementation performs no call-order check — every
sequence of clear/draw/display calls, in any order, is accepted; misuse is
silently tolerated, never rejected. -/
theorem protocol_never_rejects (ar : LightingArea) (ops : List AreaOp) :
    accepted (runSeq ar ops) = true := by
  induction ops generalizing ar with
  | nil => rfl
  | cons op ops ih => cases op <;> exact ih _

/-- C5 (counterexample to the claim as stated): the out-of-order sequence
display-without-clear followed by draw-after-display followed by clear is
accepted by the implementation rather than rejected. -/
theorem protocol_misuse_counterexample :
    accepted (runSeq (mkLightingArea Mode.FOG (0, 0) 4 4)
      [AreaOp.displayOp, AreaOp.drawLightOp 0, AreaOp.clearOp]) = true := by
  decide

/-- C2 (code bug): a FOG area at position (3, 4) with opacity 1 draws the
light under sf::RenderStates::Default — identity transform — although the
`fogrs` states the function constructs (and then fails to pass) carry the
inverse of the area's transform, which here differs from the identity. -/
theorem fog_drawLight_transform_bug :
    (((mkLightingArea Mode.FOG (3, 4) 8 8).setAreaOpacity 1).drawLight 5).renderTexture.log =
      [SurfaceOp.draw ⟨Drawable.light 5, RenderStates.default⟩] ∧
    ((mkLightingArea Mode.FOG (3, 4) 8 8).setAreaOpacity 1).fogrs.transform =
      (Transform.translation 3 4).getInverse ∧
    RenderStates.default.transform ≠ (Transform.translation 3 4).getInverse := by
  refine ⟨rfl, ?_, ?_⟩
  · simp [LightingArea.fogrs, mkLightingArea, LightingArea.preInit,
      LightingArea.initializeRenderTexture, LightingArea.setAreaOpacity,
      Transform.identity_combine]
  · norm_num [RenderStates.default, Transform.identity, Transform.getInverse,
      Transform.det, Transform.translation]

/-- C3 (code bug): a FOG area with opacity 1 does draw the light (and an
area with opacity 0 leaves the surface untouched), but the draw runs under
the default alpha blend mode, not the subtract-alpha blend mode
`l_substractAlpha` held by the unused local `fogrs`. -/
theorem fog_drawLight_blend_bug :
    (((mkLightingArea Mode.FOG (0, 0) 8 8).setAreaOpacity 1).drawLight 5).renderTexture.log =
      [SurfaceOp.draw ⟨Drawable.light 5, RenderStates.default⟩] ∧
    RenderStates.default.blendMode = sfBlendAlpha ∧
    sfBlendAlpha ≠ l_substractAlpha ∧
    ((mkLightingArea Mode.FOG (0, 0) 8 8).setAreaOpacity 0).drawLight 5 =
      (mkLightingArea Mode.FOG (0, 0) 8 8).setAreaOpacity 0 := by
  decide

/-- C4 (code bug): with a base texture set, clear() clears to transparent
and then draws the base-texture quad with no texture bound (default render
states), so the base texture itself is never drawn; without a base texture
the surface is cleared to the effective base color, whose alpha is the
byte-truncated product of the color's alpha and the opacity (200 × 1/2 =
100 here). -/
theorem clear_baseTexture_bug :
    ((mkLightingAreaTex Mode.FOG (some (TexRef.ext 7)) ⟨0, 0, 4, 4⟩).clear).renderTexture.log =
      [SurfaceOp.clear Color.Transparent,
       SurfaceOp.draw
         ⟨Drawable.quad (mkLightingAreaTex Mode.FOG (some (TexRef.ext 7)) ⟨0, 0, 4, 4⟩).baseTextureQuad,
          RenderStates.default⟩] ∧
    RenderStates.default.texture = none ∧
    (((mkLightingArea Mode.FOG (0, 0) 4 4).setAreaColor ⟨10, 20, 30, 200⟩).setAreaOpacity
        (1 / 2)).clear.renderTexture.log =
      [SurfaceOp.clear ⟨10, 20, 30, 100⟩] := by
  refine ⟨rfl, rfl, ?_⟩
  have h : byteScale 200 (2⁻¹ : ℚ) = 100 := by
    have h2 : ((200 : Nat) : ℚ) * (2⁻¹ : ℚ) = ((100 : Int) : ℚ) := by norm_num
    rw [byteScale, h2, Int.floor_intCast]
    rfl
  simp [LightingArea.clear, mkLightingArea, LightingArea.preInit,
    LightingArea.initializeRenderTexture, LightingArea.setAreaOpacity,
    LightingArea.setAreaColor, LightingArea.getActualColor, RenderTexture.clearTo, h]

/-- C9 (code bug): after setAreaTexture(t, r) with r = (1, 2, 3, 4),
getTextureRect() still returns the default-initialized rectangle
(0, 0, 0, 0) — `m_baseTextureRect` is never written anywhere — and not r. -/
theorem setAreaTexture_getTextureRect_bug :
    ((mkLightingArea Mode.FOG (0, 0) 10 10).setAreaTexture (some (TexRef.ext 3))
        ⟨1, 2, 3, 4⟩).getTextureRect = IntRect.init ∧
    IntRect.init ≠ (⟨1, 2, 3, 4⟩ : IntRect) := by
  decide

theorem foldr_min_le (l : List ℚ) (m : ℚ) : l.foldr min m ≤ m := by
  induction l with
  | nil => exact le_refl m
  | cons x l ih => exact le_trans (min_le_right x (l.foldr min m)) ih

theorem foldr_min_nonneg (l : List ℚ) (m : ℚ) (hm : 0 ≤ m)
    (hl : ∀ x ∈ l, 0 ≤ x) : 0 ≤ l.foldr min m := by
  induction l with
  | nil => exact hm
  | cons x l ih =>
    refine le_min (hl x (List.mem_cons_self x l)) (ih ?_)
    intro y hy
    exact hl y (List.mem_cons_of_mem x hy)

theorem raySegParam_pos (o d : ℚ × ℚ) (s : Seg) (t : ℚ)
    (h : raySegParam o d s = some t) : 0 < t := by
  simp only [raySegParam] at h
  split_ifs at h with h1 h2
  · obtain ⟨ht, -⟩ := h2
    cases h
    exact ht

theorem hitParams_pos (pools : List (List Seg)) (o d : ℚ × ℚ) :
    ∀ x ∈ hitParams pools o d, 0 < x := by
  intro x hx
  rw [hitParams, List.mem_filterMap] at hx
  obtain ⟨s, -, hs⟩ := hx
  exact raySegParam_pos o d s x hs

/-- C8: with a unit direction `d` and `0 ≤ maxRange`, castRay returns a
point at distance at most `maxRange` from the ray origin, and when no
segment of the referenced pools intersects the ray within `maxRange` it
returns the point at distance exactly `maxRange` along the ray. -/
theorem castRay_range (pools : List (List Seg)) (o d : ℚ × ℚ) (m : ℚ)
    (hd : d.1 ^ 2 + d.2 ^ 2 = 1) (hm : 0 ≤ m) :
    distSq (castRay pools o d m) o ≤ m ^ 2 ∧
    ((hitParams pools o d).filter (fun x => x ≤ m) = [] →
      castRay pools o d m = (o.1 + m * d.1, o.2 + m * d.2) ∧
      distSq (castRay pools o d m) o = m ^ 2) := by
  have hmem : ∀ x ∈ (hitParams pools o d).filter (fun x => x ≤ m), 0 ≤ x := by
    intro x hx
    exact le_of_lt (hitParams_pos pools o d x (List.mem_of_mem_filter hx))
  have ht_le : ((hitParams pools o d).filter (fun x => x ≤ m)).foldr min m ≤ m :=
    foldr_min_le _ m
  have ht_nonneg :
      0 ≤ ((hitParams pools o d).filter (fun x => x ≤ m)).foldr min m :=
    foldr_min_nonneg _ m hm hmem
  have hdist : ∀ t : ℚ, distSq (o.1 + t * d.1, o.2 + t * d.2) o = t ^ 2 := by
    intro t
    have expand : distSq (o.1 + t * d.1, o.2 + t * d.2) o =
        t ^ 2 * (d.1 ^ 2 + d.2 ^ 2) := by
      rw [distSq]
      ring
    rw [expand, hd, mul_one]
  constructor
  · rw [castRay, hdist]
    exact pow_le_pow_left₀ ht_nonneg ht_le 2
  · intro hnone
    have hfold : ((hitParams pools o d).filter (fun x => x ≤ m)).foldr min m = m := by
      rw [hnone]
      rfl
    constructor
    · rw [castRay, hfold]
    · rw [castRay, hfold, hdist]

theorem castRay_range_witness :
    (((1 : ℚ), (0 : ℚ)).1 ^ 2 + ((1 : ℚ), (0 : ℚ)).2 ^ 2 = 1) ∧
    (0 : ℚ) ≤ 5 ∧
    (distSq (castRay [[⟨(2, -1), (2, 1)⟩]] ((0 : ℚ), (0 : ℚ)) (1, 0) 5)
        ((0 : ℚ), (0 : ℚ)) ≤ 5 ^ 2 ∧
      ((hitParams [[⟨(2, -1), (2, 1)⟩]] ((0 : ℚ), (0 : ℚ)) (1, 0)).filter
          (fun x => x ≤ 5) = [] →
        castRay [[⟨(2, -1), (2, 1)⟩]] ((0 : ℚ), (0 : ℚ)) (1, 0) 5 =
          (((0 : ℚ), (0 : ℚ)).1 + 5 * ((1 : ℚ), (0 : ℚ)).1,
           ((0 : ℚ), (0 : ℚ)).2 + 5 * ((1 : ℚ), (0 : ℚ)).2) ∧
        distSq (castRay [[⟨(2, -1), (2, 1)⟩]] ((0 : ℚ), (0 : ℚ)) (1, 0) 5)
          ((0 : ℚ), (0 : ℚ)) = 5 ^ 2)) :=
  ⟨by norm_num, by norm_num,
   castRay_range [[⟨(2, -1), (2, 1)⟩]] ((0 : ℚ), (0 : ℚ)) (1, 0) 5
     (by norm_num) (by norm_num)⟩

end Candle
